import Mathlib

/-!
Verification of the NexOS self-evolution core against its specification.

The development shallowly embeds the C sources:
  - the security subsystem (security_init, security_set_policy,
    security_verify_patch, security_check_evolution_permission,
    security_create_rollback_entry, security_rollback_patch,
    security_rollback_all) from the security implementation file;
  - the AI engine functions ai_engine_update_optimization_history and
    ai_engine_learn_from_history from ai_engine.c;
  - the kernel evolution controller (self_evolution_enable,
    self_evolution_analyze) from kernel.c.

Modelling conventions:
  - C pointers that may be NULL become Option; opaque byte buffers become
    List Nat; machine integers become Nat (no arithmetic in the embedded
    code ever overflows 32/64 bits on the inputs considered);
  - C float fields (accuracy, actual_improvement) are modelled as exact
    rationals, so 0.9f becomes (9/10 : Rat);
  - memory_allocate is modelled on its success path (allocation failure is
    environment nondeterminism outside these claims);
  - the global static structs security_state / ai_state / kernel_state
    become explicit state values threaded through the functions.
-/

namespace NexOS

/-- error_code_t from kernel.h. -/
inductive ErrorCode where
  | none
  | memoryAllocation
  | invalidParameter
  | resourceBusy
  | notImplemented
  | permissionDenied
  | timeout
  | unknown
deriving DecidableEq, Repr

/-- security_policy_t: the four policy levels. -/
inductive SecurityPolicyLevel where
  | permissive
  | standard
  | strict
  | paranoid
deriving DecidableEq, Repr

/-- security_policy_descriptor_t. -/
structure SecurityPolicyDescriptor where
  level : SecurityPolicyLevel
  allow_self_evolution : Bool
  allow_kernel_modifications : Bool
  allow_driver_modifications : Bool
  allow_memory_layout_changes : Bool
  allow_scheduler_modifications : Bool
  require_verification : Bool
  require_rollback_capability : Bool
  max_patch_size : Nat
  max_patches_per_cycle : Nat
deriving DecidableEq, Repr

/-- patch_descriptor_t. original_code and patch_code are the two possibly
NULL byte-buffer pointers. -/
structure PatchDescriptor where
  id : Nat
  size : Nat
  timestamp : Nat
  target_module : Nat
  target_offset : Nat
  original_size : Nat
  original_code : Option (List Nat)
  patch_code : Option (List Nat)
  applied : Bool
  verified : Bool
deriving DecidableEq, Repr

/-- rollback_entry_t. -/
structure RollbackEntry where
  patch_id : Nat
  apply_timestamp : Nat
  original_code : Option (List Nat)
  original_size : Nat
  target_module : Nat
  target_offset : Nat
deriving DecidableEq, Repr

/-- Default rollback entry (zeroed storage; patch_id 0 is the dead
sentinel). -/
def emptyRollbackEntry : RollbackEntry :=
  { patch_id := 0, apply_timestamp := 0, original_code := Option.none
    original_size := 0, target_module := 0, target_offset := 0 }

instance : Inhabited RollbackEntry := ⟨emptyRollbackEntry⟩

/-- rollback_log_t: a saturating count plus the backing array of 100
entries. -/
structure RollbackLog where
  entry_count : Nat
  entries : List RollbackEntry
deriving DecidableEq, Repr

/-- The static security_state struct. -/
structure SecurityState where
  initialized : Bool
  policy : SecurityPolicyDescriptor
  rollback_log : RollbackLog
  next_patch_id : Nat
deriving DecidableEq, Repr

/-- The per-level policy bundle written by the switch in
security_set_policy. Each case assigns every field, and the level field is
assigned just before the switch. -/
def policyBundle : SecurityPolicyLevel → SecurityPolicyDescriptor
  | .permissive =>
    { level := .permissive
      allow_self_evolution := true
      allow_kernel_modifications := true
      allow_driver_modifications := true
      allow_memory_layout_changes := true
      allow_scheduler_modifications := true
      require_verification := true
      require_rollback_capability := true
      max_patch_size := 8192
      max_patches_per_cycle := 10 }
  | .standard =>
    { level := .standard
      allow_self_evolution := true
      allow_kernel_modifications := true
      allow_driver_modifications := true
      allow_memory_layout_changes := true
      allow_scheduler_modifications := true
      require_verification := true
      require_rollback_capability := true
      max_patch_size := 4096
      max_patches_per_cycle := 5 }
  | .strict =>
    { level := .strict
      allow_self_evolution := true
      allow_kernel_modifications := false
      allow_driver_modifications := true
      allow_memory_layout_changes := false
      allow_scheduler_modifications := true
      require_verification := true
      require_rollback_capability := true
      max_patch_size := 2048
      max_patches_per_cycle := 3 }
  | .paranoid =>
    { level := .paranoid
      allow_self_evolution := false
      allow_kernel_modifications := false
      allow_driver_modifications := false
      allow_memory_layout_changes := false
      allow_scheduler_modifications := false
      require_verification := true
      require_rollback_capability := true
      max_patch_size := 1024
      max_patches_per_cycle := 1 }

/-- security_init: the state after a successful first initialization.
The defaults are the STANDARD bundle; 100 rollback entries are allocated
(modelled as zeroed storage, never read before first write because
entry_count starts at 0); next_patch_id starts at 1. -/
def securityInitState : SecurityState :=
  { initialized := true
    policy := policyBundle .standard
    rollback_log := { entry_count := 0, entries := List.replicate 100 emptyRollbackEntry }
    next_patch_id := 1 }

/-- security_set_policy: writes policy.level, then the switch assigns the
whole bundle of remaining fields for the chosen level. -/
def security_set_policy (lvl : SecurityPolicyLevel) (st : SecurityState) :
    ErrorCode × SecurityState :=
  if !st.initialized then (.notImplemented, st)
  else
    let p0 := { st.policy with level := lvl }
    let p1 :=
      match lvl with
      | .permissive =>
        { p0 with
          allow_self_evolution := true
          allow_kernel_modifications := true
          allow_driver_modifications := true
          allow_memory_layout_changes := true
          allow_scheduler_modifications := true
          require_verification := true
          require_rollback_capability := true
          max_patch_size := 8192
          max_patches_per_cycle := 10 }
      | .standard =>
        { p0 with
          allow_self_evolution := true
          allow_kernel_modifications := true
          allow_driver_modifications := true
          allow_memory_layout_changes := true
          allow_scheduler_modifications := true
          require_verification := true
          require_rollback_capability := true
          max_patch_size := 4096
          max_patches_per_cycle := 5 }
      | .strict =>
        { p0 with
          allow_self_evolution := true
          allow_kernel_modifications := false
          allow_driver_modifications := true
          allow_memory_layout_changes := false
          allow_scheduler_modifications := true
          require_verification := true
          require_rollback_capability := true
          max_patch_size := 2048
          max_patches_per_cycle := 3 }
      | .paranoid =>
        { p0 with
          allow_self_evolution := false
          allow_kernel_modifications := false
          allow_driver_modifications := false
          allow_memory_layout_changes := false
          allow_scheduler_modifications := false
          require_verification := true
          require_rollback_capability := true
          max_patch_size := 1024
          max_patches_per_cycle := 1 }
    (.none, { st with policy := p1 })

/-- The target-module switch inside security_verify_patch: modules
0 Kernel / 1 Driver / 2 MemoryLayout / 3 Scheduler checked against the
per-domain allow flags; unknown modules are ERROR_INVALID_PARAMETER. -/
def modulePolicyCheck (pol : SecurityPolicyDescriptor) (m : Nat) : Option ErrorCode :=
  match m with
  | 0 => if !pol.allow_kernel_modifications then some .permissionDenied else Option.none
  | 1 => if !pol.allow_driver_modifications then some .permissionDenied else Option.none
  | 2 => if !pol.allow_memory_layout_changes then some .permissionDenied else Option.none
  | 3 => if !pol.allow_scheduler_modifications then some .permissionDenied else Option.none
  | _ => some .invalidParameter

/-- security_verify_patch: takes the (possibly NULL) patch pointer and the
size argument; returns the error code and the patch, whose verified flag
is set on success. The checks appear in the source order: null/size,
max_patch_size, target-module policy switch, original-code backup,
patch-code payload. -/
def security_verify_patch (patch : Option PatchDescriptor) (size : Nat)
    (st : SecurityState) : ErrorCode × Option PatchDescriptor :=
  if !st.initialized then (.notImplemented, patch)
  else
    match patch with
    | Option.none => (.invalidParameter, Option.none)
    | some pd =>
      if size = 0 then (.invalidParameter, some pd)
      else if size > st.policy.max_patch_size then (.invalidParameter, some pd)
      else
        match modulePolicyCheck st.policy pd.target_module with
        | some e => (e, some pd)
        | Option.none =>
          if pd.original_code.isNone || pd.original_size = 0 then
            (.invalidParameter, some pd)
          else if pd.patch_code.isNone || pd.size = 0 then
            (.invalidParameter, some pd)
          else (.none, some { pd with verified := true })

/-- security_check_evolution_permission. -/
def security_check_evolution_permission (st : SecurityState) : ErrorCode :=
  if !st.initialized then .notImplemented
  else if !st.policy.allow_self_evolution then .permissionDenied
  else .none

/-- The rollback entry captured from a patch by
security_create_rollback_entry (the original code is copied into an
independently owned buffer with the same contents). -/
def mkRollbackEntry (pd : PatchDescriptor) : RollbackEntry :=
  { patch_id := pd.id
    apply_timestamp := pd.timestamp
    original_code := pd.original_code
    original_size := pd.original_size
    target_module := pd.target_module
    target_offset := pd.target_offset }

/-- security_create_rollback_entry: when the policy requires rollback
capability, writes the captured entry at index entry_count % 100 and
increments entry_count only while it is below 100. -/
def security_create_rollback_entry (patch : Option PatchDescriptor)
    (st : SecurityState) : ErrorCode × SecurityState :=
  if !st.initialized then (.notImplemented, st)
  else
    match patch with
    | Option.none => (.invalidParameter, st)
    | some pd =>
      if st.policy.require_rollback_capability then
        let idx := st.rollback_log.entry_count % 100
        let entries := st.rollback_log.entries.set idx (mkRollbackEntry pd)
        let cnt :=
          if st.rollback_log.entry_count < 100 then st.rollback_log.entry_count + 1
          else st.rollback_log.entry_count
        (.none, { st with rollback_log := { entry_count := cnt, entries := entries } })
      else (.none, st)

/-- The linear search in security_rollback_patch: first index i with
i < entry_count whose entry has the requested patch_id. The second
argument is the remaining entry_count budget. -/
def findRollbackIndex (pid : Nat) : List RollbackEntry → Nat → Option Nat
  | _, 0 => Option.none
  | [], _ + 1 => Option.none
  | e :: rest, c + 1 =>
    if e.patch_id = pid then some 0
    else (findRollbackIndex pid rest c).map (· + 1)

/-- The state of a rollback entry after security_rollback_patch processes
it: the owned original-code backup is freed and the patch id is reset to
the sentinel 0 marking the entry invalid. -/
def deadEntry (e : RollbackEntry) : RollbackEntry :=
  { e with original_code := Option.none, patch_id := 0 }

/-- security_rollback_patch: finds the first entry (within entry_count)
whose patch_id matches, frees its original-code backup and resets its
patch_id to the sentinel 0; with no match returns
ERROR_INVALID_PARAMETER. -/
def security_rollback_patch (pid : Nat) (st : SecurityState) :
    ErrorCode × SecurityState :=
  if !st.initialized then (.notImplemented, st)
  else
    match findRollbackIndex pid st.rollback_log.entries st.rollback_log.entry_count with
    | Option.none => (.invalidParameter, st)
    | some i =>
      let e := st.rollback_log.entries.getD i emptyRollbackEntry
      let entries := st.rollback_log.entries.set i (deadEntry e)
      (.none, { st with rollback_log := { st.rollback_log with entries := entries } })

/-- The loop of security_rollback_all, instrumented with the list of patch
ids it rolls back, in invocation order. The counter walks the slots from
entry_count - 1 down to 0 and calls security_rollback_patch on every live
entry. -/
def rollbackAllAux : Nat → SecurityState → List Nat × SecurityState
  | 0, st => ([], st)
  | i + 1, st =>
    let e := st.rollback_log.entries.getD i emptyRollbackEntry
    if e.patch_id ≠ 0 then
      let st1 := (security_rollback_patch e.patch_id st).2
      let r := rollbackAllAux i st1
      (e.patch_id :: r.1, r.2)
    else rollbackAllAux i st

/-- security_rollback_all. -/
def security_rollback_all (st : SecurityState) : ErrorCode × SecurityState :=
  if !st.initialized then (.notImplemented, st)
  else (.none, (rollbackAllAux st.rollback_log.entry_count st).2)

/-- The order in which security_rollback_all rolls patches back. -/
def rollbackAllOrder (st : SecurityState) : List Nat :=
  (rollbackAllAux st.rollback_log.entry_count st).1

/-- Folding security_create_rollback_entry over a list of patches, one
capture per applied patch, in application order. -/
def insertAll (st : SecurityState) (ps : List PatchDescriptor) : SecurityState :=
  ps.foldl (fun s p => (security_create_rollback_entry (some p) s).2) st

/-! AI engine data model, from the AI engine header and ai_engine.c. -/

/-- One entry of the anonymous struct array inside optimization_history_t. -/
structure HistoryEntry where
  timestamp : Nat
  suggestion_id : Nat
  actual_improvement : Rat
  reverted : Bool
deriving DecidableEq, Repr

instance : Inhabited HistoryEntry := ⟨{ timestamp := 0, suggestion_id := 0, actual_improvement := 0, reverted := false }⟩

/-- optimization_history_t: a saturating count plus the 100-slot entries
array. -/
structure OptimizationHistory where
  entry_count : Nat
  entries : List HistoryEntry
deriving DecidableEq, Repr

/-- optimization_suggestion_t. The opaque optimization_data payload is
omitted: none of the embedded functions reads it. -/
structure Suggestion where
  id : Nat
  expected_improvement : Rat
  confidence : Nat
deriving DecidableEq, Repr

instance : Inhabited Suggestion := ⟨{ id := 0, expected_improvement := 0, confidence := 0 }⟩

/-- ai_model_t. The opaque model_data payload is omitted: none of the
embedded functions reads it. -/
structure AiModel where
  model_size : Nat
  version : Nat
  last_updated : Nat
  inference_count : Nat
  accuracy : Rat
deriving DecidableEq, Repr

instance : Inhabited AiModel := ⟨{ model_size := 0, version := 0, last_updated := 0, inference_count := 0, accuracy := 0 }⟩

/-- The static ai_state struct together with the static models[6] array
(indices follow ai_model_type_t: 0 performance, 1 memory, 2 scheduler,
3 power, 4 security, 5 code). -/
structure AiState where
  initialized : Bool
  last_collection_time : Nat
  last_analysis_time : Nat
  last_learning_time : Nat
  models : List AiModel
  history : OptimizationHistory
deriving DecidableEq, Repr

/-- ai_engine_init: the state after a successful first initialization: six
version-1 models with accuracy 0 and an empty zeroed history. -/
def aiInitState : AiState :=
  { initialized := true
    last_collection_time := 0
    last_analysis_time := 0
    last_learning_time := 0
    models := List.replicate 6
      { model_size := 1024, version := 1, last_updated := 0, inference_count := 0, accuracy := 0 }
    history := { entry_count := 0, entries := List.replicate 100 default } }

/-- The inner j-loop of ai_engine_update_optimization_history, commented
in the source as finding the corresponding suggestion for patch i. The
loop runs j from 0 while j < 10 (the fuel argument) and suggestions[j].id
is nonzero; its body assigns suggestion_id and breaks whenever
i < patch_count. -/
def findSuggestionId (i patch_count : Nat) : List Suggestion → Nat → Nat
  | _, 0 => 0
  | [], _ + 1 => 0
  | s :: rest, fuel + 1 =>
    if s.id = 0 then 0
    else if i < patch_count then s.id
    else findSuggestionId i patch_count rest fuel

/-- ai_engine_update_optimization_history: for each generated patch index
i below patch_count, looks up a suggestion id with the inner loop and,
when it is nonzero, writes a fresh history entry (timestamped with
ai_state.last_analysis_time, improvement 0, not reverted) at slot
entry_count % 100, incrementing the count only while below 100. -/
def ai_engine_update_optimization_history (st : AiState)
    (history : OptimizationHistory) (suggestions : Option (List Suggestion))
    (patch_count : Nat) : ErrorCode × OptimizationHistory :=
  if !st.initialized then (.notImplemented, history)
  else
    match suggestions with
    | Option.none => (.invalidParameter, history)
    | some sugs =>
      let h := (List.range patch_count).foldl (fun h i =>
        let sid := findSuggestionId i patch_count sugs 10
        if sid = 0 then h
        else
          { entry_count := if h.entry_count < 100 then h.entry_count + 1 else h.entry_count
            entries := h.entries.set (h.entry_count % 100)
              { timestamp := st.last_analysis_time, suggestion_id := sid
                actual_improvement := 0, reverted := false } }) history
      (.none, h)

/-- The suggestion-id to model-index switch in
ai_engine_learn_from_history: 1 memory defragmentation → AI_MODEL_MEMORY,
2 time-slice adjustment → AI_MODEL_SCHEDULER, 3 I/O policy →
AI_MODEL_PERFORMANCE; unknown ids are skipped. -/
def suggestionModelIndex : Nat → Option Nat
  | 1 => some 1
  | 2 => some 2
  | 3 => some 0
  | _ => Option.none

/-- The accuracy update performed on one history entry by
ai_engine_learn_from_history: an exponential moving average with weight
0.9 when the entry is not reverted, and plain decay by 0.9 when it is. -/
def learnStep (models : List AiModel) (e : HistoryEntry) : List AiModel :=
  match suggestionModelIndex e.suggestion_id with
  | Option.none => models
  | some m =>
    let old := models.getD m default
    models.set m
      { old with accuracy :=
          if !e.reverted then 9/10 * old.accuracy + 1/10 * e.actual_improvement
          else 9/10 * old.accuracy }

/-- ai_engine_learn_from_history: iterates i over the first entry_count
history entries (reading slot i % 100 as the source does), updating the
owning model per entry, then refreshes last_learning_time. -/
def ai_engine_learn_from_history (st : AiState) : ErrorCode × AiState :=
  if !st.initialized then (.notImplemented, st)
  else
    let ms := (List.range st.history.entry_count).foldl (fun ms i =>
      learnStep ms (st.history.entries.getD (i % 100) default)) st.models
    (.none, { st with models := ms, last_learning_time := st.last_collection_time })

/-! Kernel evolution controller, from kernel.c. -/

/-- self_evolution_t from kernel.h. -/
structure SelfEvolution where
  last_analysis_time : Nat
  optimization_count : Nat
  patch_count : Nat
  evolution_level : Nat
  evolution_enabled : Bool
deriving DecidableEq, Repr

/-- The fields of the static kernel_state relevant to the evolution
controller. -/
structure KernelState where
  initialized : Bool
  uptime : Nat
  evolution : SelfEvolution
deriving DecidableEq, Repr

/-- The combined system state the evolution cycle runs over: the kernel
controller plus the security and AI global states it calls into. -/
structure SysState where
  kernel : KernelState
  security : SecurityState
  ai : AiState
deriving DecidableEq, Repr

/-- self_evolution_apply_patch: the external patch applier. Its only
implementation in the repository is the test mock in test_fixed.c, which
reports success unconditionally. -/
def self_evolution_apply_patch (_patch : Option PatchDescriptor) (_size : Nat) :
    ErrorCode := .none

/-- The Applying loop of self_evolution_analyze (kernel.c lines 340-355):
for each generated patch, security_verify_patch, then on success
self_evolution_apply_patch, incrementing evolution.patch_count when the
apply succeeds. No other call is made per patch. -/
def applyPatchLoop (sec : SecurityState)
    (patches : List (Option PatchDescriptor × Nat)) (applied : Nat) : Nat :=
  patches.foldl (fun acc p =>
    if (security_verify_patch p.1 p.2 sec).1 = .none then
      if self_evolution_apply_patch p.1 p.2 = .none then acc + 1 else acc
    else acc) applied

/-- self_evolution_analyze. The AI analysis and synthesis pipeline
(ai_engine_collect_metrics, ai_engine_analyze_performance,
ai_engine_generate_patches) depends on the external metric providers, so
its outputs — the suggestion batch and the generated patch list with the
per-patch sizes — are passed in as parameters; the collection step is
modelled on its success path (the repository's providers, the test mocks,
always succeed). The function stamps last_analysis_time from the kernel
uptime, runs the Applying loop, calls
ai_engine_update_optimization_history with the generated patch count, and
bumps optimization_count. -/
def self_evolution_analyze (suggestions : List Suggestion)
    (patches : List (Option PatchDescriptor × Nat)) (st : SysState) :
    ErrorCode × SysState :=
  if !st.kernel.initialized || !st.kernel.evolution.evolution_enabled then
    (.notImplemented, st)
  else
    let ev0 := { st.kernel.evolution with last_analysis_time := st.kernel.uptime }
    let ev1 := { ev0 with patch_count := applyPatchLoop st.security patches ev0.patch_count }
    let hist := (ai_engine_update_optimization_history st.ai st.ai.history
      (some suggestions) patches.length).2
    let ev2 := { ev1 with optimization_count := ev1.optimization_count + 1 }
    (.none,
      { st with
        kernel := { st.kernel with evolution := ev2 }
        ai := { st.ai with history := hist } })

/-- self_evolution_enable: checks security_check_evolution_permission
first and propagates its failure; otherwise writes the enabled flag and,
when enabling, immediately runs one analysis pass (whose pipeline outputs
are the same parameters as in self_evolution_analyze). -/
def self_evolution_enable (en : Bool) (suggestions : List Suggestion)
    (patches : List (Option PatchDescriptor × Nat)) (st : SysState) :
    ErrorCode × SysState :=
  if !st.kernel.initialized then (.notImplemented, st)
  else
    let perm := security_check_evolution_permission st.security
    if perm ≠ .none then (perm, st)
    else
      let st1 :=
        { st with kernel :=
            { st.kernel with evolution :=
                { st.kernel.evolution with evolution_enabled := en } } }
      if en then self_evolution_analyze suggestions patches st1
      else (.none, st1)

/-! Concrete states and inputs used by the claim instances below. -/

instance : Inhabited PatchDescriptor :=
  ⟨{ id := 0, size := 0, timestamp := 0, target_module := 0, target_offset := 0
     original_size := 0, original_code := Option.none, patch_code := Option.none
     applied := false, verified := false }⟩

/-- A well-formed memory-layout patch (module 2) with both buffers
present, as synthesized for a defragmentation suggestion. -/
def goodPatch7 : PatchDescriptor :=
  { id := 7, size := 16, timestamp := 3, target_module := 2, target_offset := 0
    original_size := 16, original_code := some (List.replicate 16 204)
    patch_code := some (List.replicate 16 204), applied := false, verified := false }

/-- The security state after switching the fresh state to the STRICT
policy. -/
def stStrict : SecurityState := (security_set_policy .strict securityInitState).2

/-- A memory-layout patch with no original-code backup. -/
def noBackupPatch : PatchDescriptor :=
  { goodPatch7 with id := 9, original_code := Option.none, original_size := 0 }

/-- A patch with id i, timestamp i, and valid buffers, for populating the
rollback log. -/
def testPatch (i : Nat) : PatchDescriptor :=
  { id := i, size := 16, timestamp := i, target_module := 2, target_offset := 0
    original_size := 4, original_code := some [1, 2, 3, 4]
    patch_code := some [9, 9, 9, 9], applied := false, verified := false }

/-- The security state after capturing a rollback entry for goodPatch7. -/
def stWith7 : SecurityState :=
  (security_create_rollback_entry (some goodPatch7) securityInitState).2

/-- stWith7 after its single entry has been rolled back (the entry is dead,
patch_id reset to the sentinel 0). -/
def stAfterRollback7 : SecurityState := (security_rollback_patch 7 stWith7).2

/-- Patches 1..101 in application order: one more than the log capacity. -/
def wPatches101 : List PatchDescriptor := (List.range 101).map (fun i => testPatch (i + 1))

/-- Patches 1..102 in application order: capacity plus two. -/
def wPatches102 : List PatchDescriptor := (List.range 102).map (fun i => testPatch (i + 1))

/-- Patches 1..100: exactly the log capacity. -/
def wPatches100 : List PatchDescriptor := (List.range 100).map (fun i => testPatch (i + 1))

/-- Two further patches beyond capacity. -/
def wPatchesExtra : List PatchDescriptor := [testPatch 101, testPatch 102]

/-- Three patches for the no-wrap rollback-order instance. -/
def wPatches3 : List PatchDescriptor := [testPatch 5, testPatch 6, testPatch 7]

/-- The rollback log populated with patches 1..101 (wrapped once). -/
def stWrap101 : SecurityState := insertAll securityInitState wPatches101

/-- Suggestion batch with two above-bar suggestions (ids 1 and 2). -/
def sugsC4 : List Suggestion := [⟨1, 3/10, 80⟩, ⟨2, 1/5, 70⟩]

/-- AI state for the E2E learning scenario: scheduler model accuracy 0.7
and a single non-reverted history entry with suggestion id 2 and measured
improvement 0.5. -/
def stLearnD : AiState :=
  { aiInitState with
    models := aiInitState.models.set 2 { (default : AiModel) with accuracy := 7/10 }
    history :=
      { entry_count := 1
        entries := (List.replicate 100 (default : HistoryEntry)).set 0
          { timestamp := 0, suggestion_id := 2, actual_improvement := 1/2, reverted := false } } }

/-- A running system state around a given security state: kernel and AI
initialized, evolution enabled, all counters zero. -/
def sysAround (sec : SecurityState) : SysState :=
  { kernel :=
      { initialized := true, uptime := 0
        evolution :=
          { last_analysis_time := 0, optimization_count := 0, patch_count := 0
            evolution_level := 0, evolution_enabled := true } }
    security := sec
    ai := aiInitState }

/-- The running system under the default STANDARD policy. -/
def sysStd : SysState := sysAround securityInitState

/-- The running system under the PARANOID policy (allow_self_evolution
false). -/
def sysPar : SysState := sysAround (security_set_policy .paranoid securityInitState).2

/-! Helper lemmas about list indexing shared by several claims. -/

theorem getD_set_self {α : Type} (l : List α) (i : Nat) (h : i < l.length) (a d : α) :
    (l.set i a).getD i d = a := by
  simp [List.getD_eq_getElem?_getD, List.getElem?_set_self h]

theorem getD_set_ne {α : Type} (l : List α) {i j : Nat} (h : i ≠ j) (a d : α) :
    (l.set i a).getD j d = l.getD j d := by
  simp [List.getD_eq_getElem?_getD, List.getElem?_set_ne h]

/-! Helper lemmas about the linear search of security_rollback_patch. -/

theorem findRollbackIndex_some {pid : Nat} :
    ∀ (l : List RollbackEntry) (c i : Nat),
      findRollbackIndex pid l c = some i →
      i < l.length ∧ i < c ∧ (l.getD i emptyRollbackEntry).patch_id = pid := by
  intro l
  induction l with
  | nil => intro c i h; cases c <;> simp [findRollbackIndex] at h
  | cons e rest ih =>
    intro c i h
    cases c with
    | zero => simp [findRollbackIndex] at h
    | succ c =>
      simp only [findRollbackIndex] at h
      by_cases he : e.patch_id = pid
      · simp [he] at h
        subst h
        simpa using he
      · simp only [he, if_false] at h
        cases hrec : findRollbackIndex pid rest c with
        | none => rw [hrec] at h; simp at h
        | some j =>
          rw [hrec] at h
          simp at h
          obtain ⟨h1, h2, h3⟩ := ih c j hrec
          subst h
          refine ⟨by simpa using h1, by omega, ?_⟩
          simpa using h3

theorem findRollbackIndex_none {pid : Nat} :
    ∀ (l : List RollbackEntry) (c : Nat),
      (∀ i, i < c → (l.getD i emptyRollbackEntry).patch_id ≠ pid) →
      findRollbackIndex pid l c = Option.none := by
  intro l
  induction l with
  | nil => intro c _; cases c <;> simp [findRollbackIndex]
  | cons e rest ih =>
    intro c h
    cases c with
    | zero => simp [findRollbackIndex]
    | succ c =>
      have he : e.patch_id ≠ pid := by simpa using h 0 (Nat.succ_pos c)
      have hrest : findRollbackIndex pid rest c = Option.none := by
        refine ih c ?_
        intro i hi
        simpa using h (i + 1) (by omega)
      simp [findRollbackIndex, he, hrest]

theorem findRollbackIndex_isSome {pid : Nat} :
    ∀ (l : List RollbackEntry) (c i : Nat), i < c → i < l.length →
      (l.getD i emptyRollbackEntry).patch_id = pid →
      ∃ j, findRollbackIndex pid l c = some j := by
  intro l
  induction l with
  | nil => intro c i _ hil; simp at hil
  | cons e rest ih =>
    intro c i hic hil hmatch
    cases c with
    | zero => omega
    | succ c =>
      by_cases he : e.patch_id = pid
      · exact ⟨0, by simp [findRollbackIndex, he]⟩
      · cases i with
        | zero => simp at hmatch; exact absurd hmatch he
        | succ i =>
          obtain ⟨j, hj⟩ := ih c i (by omega) (by simpa using hil) (by simpa using hmatch)
          exact ⟨j + 1, by simp [findRollbackIndex, he, hj]⟩

theorem findRollbackIndex_first {pid : Nat} :
    ∀ (l : List RollbackEntry) (c i : Nat), i < c → i < l.length →
      (l.getD i emptyRollbackEntry).patch_id = pid →
      (∀ j, j < i → (l.getD j emptyRollbackEntry).patch_id ≠ pid) →
      findRollbackIndex pid l c = some i := by
  intro l
  induction l with
  | nil => intro c i _ hil; simp at hil
  | cons e rest ih =>
    intro c i hic hil hmatch hbefore
    cases c with
    | zero => omega
    | succ c =>
      cases i with
      | zero =>
        simp at hmatch
        simp [findRollbackIndex, hmatch]
      | succ i =>
        have he : e.patch_id ≠ pid := by simpa using hbefore 0 (Nat.succ_pos i)
        have hrec : findRollbackIndex pid rest c = some i := by
          refine ih c i (by omega) (by simpa using hil) (by simpa using hmatch) ?_
          intro j hj
          simpa using hbefore (j + 1) (by omega)
        simp [findRollbackIndex, he, hrec]

/-! Claim C2: order of checks in security_verify_patch. In the spec's
denial taxonomy ERROR_INVALID_PARAMETER on the backup/payload checks is
Deny(MissingBackupOrPayload) and ERROR_PERMISSION_DENIED on the
target-module switch is Deny(PolicyViolation). -/

/-- Claim C2, counterexample. The claim places the integrity check before
the policy check, so a patch that both lacks an original_code backup and
targets a module forbidden by the policy should be denied with the
integrity reason (ERROR_INVALID_PARAMETER). On the concrete input — the
STRICT policy (memory-layout changes forbidden) and a module-2 patch with
no backup — security_verify_patch instead returns the policy denial
ERROR_PERMISSION_DENIED. -/
theorem verify_order_counterexample :
    (security_verify_patch (some noBackupPatch) 16 stStrict).1 = ErrorCode.permissionDenied
    ∧ ErrorCode.permissionDenied ≠ ErrorCode.invalidParameter := by
  constructor
  · rfl
  · decide

/-- Claim C2, amended: security_verify_patch checks structural validity
(non-null, size argument > 0, size argument ≤ policy.max_patch_size), then
per-domain policy authorization of the target module, then integrity
(original_code with original_size > 0, patch_code with descriptor size
> 0), with the first failing check determining the returned denial; a
patch lacking a backup and targeting a forbidden module therefore gets the
policy denial ERROR_PERMISSION_DENIED, not the integrity denial. -/
theorem verify_check_order (st : SecurityState) (pd : PatchDescriptor) (sz : Nat)
    (hinit : st.initialized = true) :
    (sz = 0 ∨ st.policy.max_patch_size < sz →
      (security_verify_patch (some pd) sz st).1 = ErrorCode.invalidParameter)
    ∧ (0 < sz → sz ≤ st.policy.max_patch_size →
        (∀ e, modulePolicyCheck st.policy pd.target_module = some e →
          (security_verify_patch (some pd) sz st).1 = e)
        ∧ (modulePolicyCheck st.policy pd.target_module = Option.none →
            ((pd.original_code = Option.none ∨ pd.original_size = 0) →
              (security_verify_patch (some pd) sz st).1 = ErrorCode.invalidParameter)
            ∧ (pd.original_code ≠ Option.none → 0 < pd.original_size →
                (pd.patch_code = Option.none ∨ pd.size = 0) →
                (security_verify_patch (some pd) sz st).1 = ErrorCode.invalidParameter)
            ∧ (pd.original_code ≠ Option.none → 0 < pd.original_size →
                pd.patch_code ≠ Option.none → 0 < pd.size →
                security_verify_patch (some pd) sz st =
                  (ErrorCode.none, some { pd with verified := true })))) := by
  constructor
  · rintro (h0 | hmax)
    · simp [security_verify_patch, hinit, h0]
    · have : ¬ sz = 0 := by omega
      simp [security_verify_patch, hinit, this, hmax]
  · intro hpos hle
    have h0 : ¬ sz = 0 := by omega
    have hm : ¬ st.policy.max_patch_size < sz := by omega
    constructor
    · intro e he
      simp [security_verify_patch, hinit, h0, hm, he]
    · intro hmod
      refine ⟨?_, ?_, ?_⟩
      · rintro (h | h) <;>
          simp [security_verify_patch, hinit, h0, hm, hmod, h, Option.isNone_iff_eq_none]
      · intro ho hos
        rintro (h | h) <;>
          simp [security_verify_patch, hinit, h0, hm, hmod, h,
            Option.isNone_iff_eq_none, ho, Nat.pos_iff_ne_zero.mp hos]
      · intro ho hos hp hps
        simp [security_verify_patch, hinit, h0, hm, hmod,
          Option.isNone_iff_eq_none, ho, hp,
          Nat.pos_iff_ne_zero.mp hos, Nat.pos_iff_ne_zero.mp hps]

/-- Claim C2, witness: a fully valid module-2 patch of size 16 under the
fresh STANDARD policy passes every check and has its verified flag set. -/
theorem verify_check_order_witness :
    security_verify_patch (some goodPatch7) 16 securityInitState =
      (ErrorCode.none, some { goodPatch7 with verified := true }) := by
  have h := verify_check_order securityInitState goodPatch7 16 rfl
  exact ((h.2 (by decide) (by decide)).2 (by decide)).2.2 (by decide) (by decide)
    (by decide) (by decide)

/-! Claim C5: enable(false) under a policy that forbids self-evolution. -/

/-- Claim C5, counterexample. Under the PARANOID policy
(allow_self_evolution = false) with evolution currently enabled,
self_evolution_enable false fails with ERROR_PERMISSION_DENIED and leaves
evolution_enabled true — disabling does not succeed from every state. -/
theorem disable_paranoid_counterexample :
    (self_evolution_enable false [] [] sysPar).1 = ErrorCode.permissionDenied
    ∧ (self_evolution_enable false [] [] sysPar).2.kernel.evolution.evolution_enabled = true := by
  constructor <;> rfl

/-- Claim C5, amended: self_evolution_enable checks
security_check_evolution_permission before either transition, so
enable(false) succeeds and clears evolution_enabled exactly when the
active policy's allow_self_evolution flag is true; when the flag is false
(PARANOID), enable(false) fails with ERROR_PERMISSION_DENIED and the state
is unchanged. -/
theorem disable_requires_permission (st : SysState) (sugs : List Suggestion)
    (pats : List (Option PatchDescriptor × Nat))
    (hk : st.kernel.initialized = true) (hs : st.security.initialized = true) :
    (st.security.policy.allow_self_evolution = true →
      self_evolution_enable false sugs pats st =
        (ErrorCode.none,
          { st with kernel :=
              { st.kernel with evolution :=
                  { st.kernel.evolution with evolution_enabled := false } } }))
    ∧ (st.security.policy.allow_self_evolution = false →
        self_evolution_enable false sugs pats st = (ErrorCode.permissionDenied, st)) := by
  constructor
  · intro hallow
    simp [self_evolution_enable, security_check_evolution_permission, hk, hs, hallow]
  · intro hdeny
    simp [self_evolution_enable, security_check_evolution_permission, hk, hs, hdeny]

/-- Claim C5, witness: under the STANDARD policy, enable(false) succeeds
and clears the enabled flag. -/
theorem disable_requires_permission_witness :
    (self_evolution_enable false [] [] sysStd).1 = ErrorCode.none
    ∧ (self_evolution_enable false [] [] sysStd).2.kernel.evolution.evolution_enabled = false := by
  have h := (disable_requires_permission sysStd [] [] rfl rfl).1 rfl
  rw [h]
  exact ⟨rfl, rfl⟩

/-! Claim C9: the STRICT bundle forbids memory-layout patches. -/

/-- Claim C9: switching the level to STRICT replaces the whole policy
bundle at once (the result is the fixed STRICT bundle regardless of the
prior policy), that bundle has allow_memory_layout_changes = false, and
thereafter any structurally valid patch targeting module 2 (MemoryLayout)
is denied with ERROR_PERMISSION_DENIED (PolicyViolation), while the same
patch under the STANDARD bundle is never denied for policy reasons. -/
theorem strict_denies_memory_layout (st : SecurityState) (hinit : st.initialized = true) :
    (security_set_policy .strict st).2.policy = policyBundle .strict
    ∧ (policyBundle .strict).allow_memory_layout_changes = false
    ∧ ∀ (pd : PatchDescriptor) (sz : Nat), pd.target_module = 2 → 0 < sz → sz ≤ 2048 →
        (security_verify_patch (some pd) sz (security_set_policy .strict st).2).1 =
          ErrorCode.permissionDenied
        ∧ (security_verify_patch (some pd) sz (security_set_policy .standard st).2).1 ≠
            ErrorCode.permissionDenied := by
  have hstrict : (security_set_policy .strict st).2 =
      { st with policy := policyBundle .strict } := by
    simp [security_set_policy, hinit]
    rfl
  have hstd : (security_set_policy .standard st).2 =
      { st with policy := policyBundle .standard } := by
    simp [security_set_policy, hinit]
    rfl
  refine ⟨by rw [hstrict], rfl, ?_⟩
  intro pd sz hmod hpos hle
  have h0 : ¬ sz = 0 := by omega
  constructor
  · rw [hstrict]
    have hm : ¬ (2048 : Nat) < sz := by omega
    simp [security_verify_patch, hinit, h0, policyBundle, hm, modulePolicyCheck, hmod]
  · rw [hstd]
    have hm : ¬ (4096 : Nat) < sz := by omega
    simp only [security_verify_patch, hinit, policyBundle, modulePolicyCheck, hmod, h0, hm,
      Bool.not_true, Bool.false_eq_true, if_false]
    split
    · simp
    · split <;> simp

/-- Claim C9, witness: the concrete module-2 patch of size 16 is denied
under STRICT and not policy-denied under STANDARD, starting from the fresh
state. -/
theorem strict_denies_memory_layout_witness :
    (security_verify_patch (some goodPatch7) 16 (security_set_policy .strict securityInitState).2).1 =
      ErrorCode.permissionDenied
    ∧ (security_verify_patch (some goodPatch7) 16 (security_set_policy .standard securityInitState).2).1 ≠
        ErrorCode.permissionDenied := by
  exact (strict_denies_memory_layout securityInitState rfl).2.2 goodPatch7 16 rfl
    (by decide) (by decide)

/-! Claim C10: the dead-entry sentinel 0 is itself matchable by
security_rollback_patch. -/

/-- Claim C10: in any state where some entry within entry_count has been
rolled back (patch_id reset to the sentinel 0), calling
security_rollback_patch with patch id 0 finds that dead entry and returns
ERROR_NONE (success) rather than the not-found failure — the sentinel is
matchable through the public interface. -/
theorem rollback_sentinel_matches (st : SecurityState) (i : Nat)
    (hinit : st.initialized = true)
    (hic : i < st.rollback_log.entry_count)
    (hil : i < st.rollback_log.entries.length)
    (hdead : (st.rollback_log.entries.getD i emptyRollbackEntry).patch_id = 0) :
    (security_rollback_patch 0 st).1 = ErrorCode.none := by
  obtain ⟨j, hj⟩ := findRollbackIndex_isSome st.rollback_log.entries
    st.rollback_log.entry_count i hic hil hdead
  simp [security_rollback_patch, hinit, hj]

/-- Claim C10, witness: after capturing an entry for patch 7 and rolling
it back, the log's single entry is dead; rollbackPatch(0) succeeds on it. -/
theorem rollback_sentinel_matches_witness :
    (security_rollback_patch 0 stAfterRollback7).1 = ErrorCode.none := by
  exact rollback_sentinel_matches stAfterRollback7 0 rfl (by decide) (by decide) (by decide)

/-! Claim C7: double rollback of the same (non-zero) patch id fails with
NotFound. ERROR_INVALID_PARAMETER on a missing rollback target is the
spec's Fails(NotFound). -/

/-- Claim C7: for a non-zero patch id, security_rollback_patch returns the
not-found failure ERROR_INVALID_PARAMETER whenever no live entry within
entry_count carries that id; a successful rollback resets the matched
entry's id to the sentinel 0; and when the id occurs on at most one entry
(ids are unique per patch), a second rollback of the same id after a
successful one returns the not-found failure rather than silently
succeeding. -/
theorem double_rollback_not_found (st : SecurityState) (pid : Nat)
    (hinit : st.initialized = true) (hpid : pid ≠ 0) :
    ((∀ i, i < st.rollback_log.entry_count →
        (st.rollback_log.entries.getD i emptyRollbackEntry).patch_id ≠ pid) →
      security_rollback_patch pid st = (ErrorCode.invalidParameter, st))
    ∧ (∀ i, findRollbackIndex pid st.rollback_log.entries st.rollback_log.entry_count = some i →
        (security_rollback_patch pid st).1 = ErrorCode.none
        ∧ ((security_rollback_patch pid st).2.rollback_log.entries.getD i
            emptyRollbackEntry).patch_id = 0)
    ∧ ((∀ i, i < st.rollback_log.entry_count → ∀ j, j < st.rollback_log.entry_count →
          (st.rollback_log.entries.getD i emptyRollbackEntry).patch_id = pid →
          (st.rollback_log.entries.getD j emptyRollbackEntry).patch_id = pid → i = j) →
        (security_rollback_patch pid st).1 = ErrorCode.none →
        (security_rollback_patch pid (security_rollback_patch pid st).2).1 =
          ErrorCode.invalidParameter) := by
  refine ⟨?_, ?_, ?_⟩
  · intro hnone
    have hfind := findRollbackIndex_none st.rollback_log.entries
      st.rollback_log.entry_count hnone
    simp [security_rollback_patch, hinit, hfind]
  · intro i hfind
    obtain ⟨hlen, _, _⟩ := findRollbackIndex_some st.rollback_log.entries
      st.rollback_log.entry_count i hfind
    have hset := getD_set_self st.rollback_log.entries i hlen
      (deadEntry (st.rollback_log.entries.getD i emptyRollbackEntry)) emptyRollbackEntry
    constructor
    · simp [security_rollback_patch, hinit, hfind]
    · simp only [security_rollback_patch, hinit, Bool.not_true, Bool.false_eq_true,
        if_false, hfind]
      rw [hset]
      rfl
  · intro huniq hsucc
    cases hfind : findRollbackIndex pid st.rollback_log.entries
        st.rollback_log.entry_count with
    | none =>
      rw [show security_rollback_patch pid st = (ErrorCode.invalidParameter, st) by
        simp [security_rollback_patch, hinit, hfind]] at hsucc
      simp at hsucc
    | some i0 =>
      obtain ⟨hlen, hic, hmatch⟩ := findRollbackIndex_some st.rollback_log.entries
        st.rollback_log.entry_count i0 hfind
      have hst2 : (security_rollback_patch pid st).2 =
          { st with rollback_log :=
              { entry_count := st.rollback_log.entry_count
                entries :=
                  st.rollback_log.entries.set i0 (deadEntry (st.rollback_log.entries.getD i0 emptyRollbackEntry)) } } := by
        simp [security_rollback_patch, hinit, hfind]
      rw [hst2]
      have hnomatch : ∀ i, i < st.rollback_log.entry_count →
          ((st.rollback_log.entries.set i0 (deadEntry (st.rollback_log.entries.getD i0 emptyRollbackEntry))).getD i
            emptyRollbackEntry).patch_id ≠ pid := by
        intro i hi
        by_cases hii : i0 = i
        · subst hii
          rw [getD_set_self _ _ hlen]
          simpa [deadEntry] using (Ne.symm hpid)
        · rw [getD_set_ne _ hii]
          intro hcontra
          exact hii (huniq i0 hic i hi hmatch hcontra)
      have hfind2 := findRollbackIndex_none
        (st.rollback_log.entries.set i0
          (deadEntry (st.rollback_log.entries.getD i0 emptyRollbackEntry)))
        st.rollback_log.entry_count hnomatch
      simp only [security_rollback_patch, hinit, Bool.not_true, Bool.false_eq_true, if_false]
      rw [hfind2]

/-- Claim C7, witness: the E2E scenario — capture an entry for patch 7,
roll it back successfully, roll it back again and get the not-found
failure. -/
theorem double_rollback_not_found_witness :
    (security_rollback_patch 7 stWith7).1 = ErrorCode.none
    ∧ (security_rollback_patch 7 (security_rollback_patch 7 stWith7).2).1 =
        ErrorCode.invalidParameter := by
  have h := double_rollback_not_found stWith7 7 rfl (by decide)
  exact ⟨by decide, h.2.2 (by decide) (by decide)⟩

/-! Claim C4: the suggestion-to-patch pairing in
ai_engine_update_optimization_history. -/

/-- Claim C4: the inner loop of ai_engine_update_optimization_history is
commented as finding the corresponding suggestion for patch i, but its
guard (i < patch_count) is always true inside the outer loop, so it
assigns the FIRST suggestion's id and breaks on its very first iteration
for every patch. On the batch with suggestion ids [1, 2] and two patches,
both appended history entries carry suggestion id 1; the second entry does
not carry the id of its originating suggestion 2. -/
theorem history_pairing_lost :
    (((ai_engine_update_optimization_history aiInitState aiInitState.history
        (some sugsC4) 2).2.entries.getD 0 default).suggestion_id = 1
    ∧ ((ai_engine_update_optimization_history aiInitState aiInitState.history
        (some sugsC4) 2).2.entries.getD 1 default).suggestion_id = 1)
    ∧ ((ai_engine_update_optimization_history aiInitState aiInitState.history
        (some sugsC4) 2).2.entries.getD 1 default).suggestion_id ≠
      (sugsC4.getD 1 default).id := by
  refine ⟨⟨?_, ?_⟩, ?_⟩ <;> decide

/-! Claim C6: the learning step's id-to-domain table and
exponential-moving-average accuracy update. -/

/-- Claim C6: for a history entry processed by
ai_engine_learn_from_history, the owning model is located by the fixed
table (suggestion id 1 → model index 1 AI_MODEL_MEMORY, id 2 → index 2
AI_MODEL_SCHEDULER, id 3 → index 0 AI_MODEL_PERFORMANCE, unknown ids
skipped) and its accuracy is updated to
0.9 * accuracy + 0.1 * actual_improvement when the entry is not reverted,
and to 0.9 * accuracy when reverted, leaving every other model untouched. -/
theorem learn_accuracy_update (st : AiState) (e : HistoryEntry)
    (hinit : st.initialized = true)
    (hcnt : st.history.entry_count = 1)
    (hhead : st.history.entries.getD 0 default = e) :
    (∀ m, suggestionModelIndex e.suggestion_id = some m →
      (ai_engine_learn_from_history st).2.models =
        st.models.set m
          { st.models.getD m default with accuracy :=
              if !e.reverted then
                9/10 * (st.models.getD m default).accuracy + 1/10 * e.actual_improvement
              else 9/10 * (st.models.getD m default).accuracy })
    ∧ (suggestionModelIndex e.suggestion_id = Option.none →
        (ai_engine_learn_from_history st).2.models = st.models)
    ∧ suggestionModelIndex 1 = some 1
    ∧ suggestionModelIndex 2 = some 2
    ∧ suggestionModelIndex 3 = some 0
    ∧ (∀ sid, 3 < sid ∨ sid = 0 → suggestionModelIndex sid = Option.none) := by
  have hfold : (ai_engine_learn_from_history st).2.models = learnStep st.models e := by
    simp only [ai_engine_learn_from_history, hinit, Bool.not_true, Bool.false_eq_true,
      if_false, hcnt]
    simp [List.range_succ, ← List.getD_eq_getElem?_getD, hhead]
  refine ⟨?_, ?_, rfl, rfl, rfl, ?_⟩
  · intro m hm
    rw [hfold]
    simp [learnStep, hm]
  · intro hm
    rw [hfold]
    simp [learnStep, hm]
  · intro sid hsid
    rcases hsid with h | h
    · match sid, h with
      | n + 4, _ => rfl
    · subst h; rfl

/-- Claim C6, witness: the E2E scenario — a non-reverted entry with
suggestion id 2 and measured improvement 0.5 against a scheduler model of
prior accuracy 0.7 yields accuracy 0.68. -/
theorem learn_accuracy_update_witness :
    ((ai_engine_learn_from_history stLearnD).2.models.getD 2 default).accuracy = 68/100 := by
  have h := (learn_accuracy_update stLearnD
    { timestamp := 0, suggestion_id := 2, actual_improvement := 1/2, reverted := false }
    rfl rfl rfl).1 2 rfl
  rw [h, getD_set_self _ _ (by decide)]
  have hacc : (stLearnD.models.getD 2 default).accuracy = 7/10 := rfl
  simp only [hacc]
  norm_num

/-! Claim C1: the evolution cycle applies patches without capturing
rollback entries. -/

/-- Claim C1: the Applying loop of self_evolution_analyze never calls
security_create_rollback_entry — the security state (in particular the
rollback log) is unchanged by the whole analysis pass, for every input.
On the concrete failing input — a fresh STANDARD-policy system with one
valid generated patch (id 7) — the cycle applies the patch
(patch_count becomes 1) while the rollback log stays empty, and rolling
patch 7 back afterwards fails as not-found: an applied patch with no
rollback entry, contradicting the capture-then-apply invariant. -/
theorem apply_without_rollback_capture :
    (∀ (sugs : List Suggestion) (pats : List (Option PatchDescriptor × Nat)) (st : SysState),
        (self_evolution_analyze sugs pats st).2.security = st.security)
    ∧ (self_evolution_analyze [⟨1, 3/10, 80⟩] [(some goodPatch7, 16)]
        sysStd).2.kernel.evolution.patch_count = 1
    ∧ (self_evolution_analyze [⟨1, 3/10, 80⟩] [(some goodPatch7, 16)]
        sysStd).2.security.rollback_log.entry_count = 0
    ∧ (security_rollback_patch 7
        ((self_evolution_analyze [⟨1, 3/10, 80⟩] [(some goodPatch7, 16)] sysStd).2.security)).1 =
      ErrorCode.invalidParameter := by
  refine ⟨?_, ?_, ?_, ?_⟩
  · intro sugs pats st
    unfold self_evolution_analyze
    split <;> rfl
  · decide
  · decide
  · decide

/-! Machinery for the circular-log claims C3 and C8: how
security_create_rollback_entry fills the log below capacity, what it does
once the saturating count reaches 100, and how security_rollback_all walks
the slots. -/

theorem getD_mem {α : Type} (l : List α) (n : Nat) (h : n < l.length) (d : α) :
    l.getD n d ∈ l := by
  rw [List.getD_eq_getElem?_getD, List.getElem?_eq_getElem h]
  exact List.getElem_mem h

theorem create_entry_below_capacity (p : PatchDescriptor) (st : SecurityState)
    (hinit : st.initialized = true)
    (hreq : st.policy.require_rollback_capability = true)
    (hc : st.rollback_log.entry_count < 100) :
    (security_create_rollback_entry (some p) st).2 =
      { st with rollback_log :=
          { entry_count := st.rollback_log.entry_count + 1
            entries :=
              st.rollback_log.entries.set st.rollback_log.entry_count (mkRollbackEntry p) } } := by
  simp [security_create_rollback_entry, hinit, hreq, Nat.mod_eq_of_lt hc, hc]

theorem create_entry_at_capacity (p : PatchDescriptor) (st : SecurityState)
    (hinit : st.initialized = true)
    (hreq : st.policy.require_rollback_capability = true)
    (hc : st.rollback_log.entry_count = 100) :
    (security_create_rollback_entry (some p) st).2 =
      { st with rollback_log :=
          { entry_count := 100
            entries := st.rollback_log.entries.set 0 (mkRollbackEntry p) } } := by
  simp [security_create_rollback_entry, hinit, hreq, hc]

theorem insertAll_spec :
    ∀ (ps : List PatchDescriptor) (st : SecurityState),
      st.initialized = true →
      st.policy.require_rollback_capability = true →
      st.rollback_log.entries.length = 100 →
      st.rollback_log.entry_count + ps.length ≤ 100 →
      (insertAll st ps).initialized = true
      ∧ (insertAll st ps).policy = st.policy
      ∧ (insertAll st ps).rollback_log.entry_count = st.rollback_log.entry_count + ps.length
      ∧ (insertAll st ps).rollback_log.entries.length = 100
      ∧ (∀ j, j < st.rollback_log.entry_count →
          (insertAll st ps).rollback_log.entries.getD j emptyRollbackEntry =
            st.rollback_log.entries.getD j emptyRollbackEntry)
      ∧ (∀ k, k < ps.length →
          (insertAll st ps).rollback_log.entries.getD (st.rollback_log.entry_count + k)
            emptyRollbackEntry = mkRollbackEntry (ps.getD k default)) := by
  intro ps
  induction ps with
  | nil =>
    intro st hinit hreq hlen hcap
    refine ⟨hinit, rfl, by simp [insertAll], hlen, fun j _ => rfl, fun k hk => by simp at hk⟩
  | cons p ps ih =>
    intro st hinit hreq hlen hcap
    have hc : st.rollback_log.entry_count < 100 := by
      simp only [List.length_cons] at hcap
      omega
    have hstep := create_entry_below_capacity p st hinit hreq hc
    have hall : insertAll st (p :: ps) =
        insertAll (security_create_rollback_entry (some p) st).2 ps := rfl
    rw [hall, hstep]
    obtain ⟨h1, h2, h3, h4, h5, h6⟩ := ih
      { st with rollback_log :=
          { entry_count := st.rollback_log.entry_count + 1
            entries :=
              st.rollback_log.entries.set st.rollback_log.entry_count (mkRollbackEntry p) } }
      hinit hreq (by simp [List.length_set, hlen])
      (by dsimp only; simp only [List.length_cons] at hcap; omega)
    dsimp only at h2 h3 h5 h6
    refine ⟨h1, h2, ?_, h4, ?_, ?_⟩
    · rw [h3]
      simp only [List.length_cons]
      omega
    · intro j hj
      rw [h5 j (by omega)]
      exact getD_set_ne _ (by omega) _ _
    · intro k hk
      by_cases hk0 : k = 0
      · subst hk0
        simp only [Nat.add_zero]
        rw [h5 st.rollback_log.entry_count (by omega)]
        rw [getD_set_self _ _ (by omega)]
        rfl
      · obtain ⟨k', rfl⟩ := Nat.exists_eq_succ_of_ne_zero hk0
        have hk' : k' < ps.length := by
          simp only [List.length_cons] at hk
          omega
        have harith : st.rollback_log.entry_count + (k' + 1) =
            st.rollback_log.entry_count + 1 + k' := by omega
        rw [harith, h6 k' hk']
        rfl

theorem insertAll_at_capacity :
    ∀ (qs : List PatchDescriptor) (st : SecurityState) (h : qs ≠ []),
      st.initialized = true →
      st.policy.require_rollback_capability = true →
      st.rollback_log.entry_count = 100 →
      insertAll st qs =
        { st with rollback_log :=
            { entry_count := 100
              entries := st.rollback_log.entries.set 0 (mkRollbackEntry (qs.getLast h)) } } := by
  intro qs
  induction qs with
  | nil => intro st h; exact absurd rfl h
  | cons q qs ih =>
    intro st h hinit hreq hc
    have hstep := create_entry_at_capacity q st hinit hreq hc
    have hall : insertAll st (q :: qs) =
        insertAll (security_create_rollback_entry (some q) st).2 qs := rfl
    cases qs with
    | nil =>
      rw [hall, hstep]
      rfl
    | cons q2 qs2 =>
      have hne : q2 :: qs2 ≠ [] := by simp
      rw [hall, hstep]
      rw [ih
        { st with rollback_log :=
            { entry_count := 100
              entries := st.rollback_log.entries.set 0 (mkRollbackEntry q) } }
        hne hinit hreq rfl]
      simp only [List.set_set]
      rw [List.getLast_cons hne]

theorem range_reverse_succ (m : Nat) :
    (List.range (m + 1)).reverse = m :: (List.range m).reverse := by
  rw [List.range_succ, List.reverse_append]
  rfl

theorem map_range_getD {α β : Type} (g : α → β) (d : α) :
    ∀ (l : List α), (List.range l.length).map (fun j => g (l.getD j d)) = l.map g := by
  intro l
  induction l with
  | nil => rfl
  | cons a l ih =>
    have hcomp : ((List.range l.length).map Nat.succ).map (fun j => g ((a :: l).getD j d)) =
        (List.range l.length).map (fun j => g (l.getD j d)) := by
      rw [List.map_map]
      rfl
    rw [List.length_cons, List.range_succ_eq_map, List.map_cons, hcomp, ih, List.map_cons]
    rfl

/-- Behaviour of the security_rollback_all loop on a log whose slots below
the loop counter m hold the original live ids f 0, ..., f (m-1) (pairwise
distinct where nonzero) and whose slots from m up to entry_count are
already dead: the loop visits slots from high index to low, rolls back
each live entry (which the inner linear search finds at exactly that
slot), records the ids in decreasing-slot order, and leaves every slot
below entry_count dead. -/
theorem rollbackAllAux_spec :
    ∀ (m : Nat) (st : SecurityState) (f : Nat → Nat) (n : Nat),
      m ≤ n →
      st.initialized = true →
      st.rollback_log.entry_count = n →
      n ≤ st.rollback_log.entries.length →
      (∀ j, j < m → (st.rollback_log.entries.getD j emptyRollbackEntry).patch_id = f j) →
      (∀ j, m ≤ j → j < n → (st.rollback_log.entries.getD j emptyRollbackEntry).patch_id = 0) →
      (∀ i, i < m → ∀ j, j < m → f i ≠ 0 → f i = f j → i = j) →
      (rollbackAllAux m st).1 = ((List.range m).reverse.map f).filter (fun x => x != 0)
      ∧ (∀ j, j < n →
          ((rollbackAllAux m st).2.rollback_log.entries.getD j emptyRollbackEntry).patch_id = 0)
      ∧ (rollbackAllAux m st).2.rollback_log.entry_count = n
      ∧ (rollbackAllAux m st).2.initialized = true := by
  intro m
  induction m with
  | zero =>
    intro st f n _ hinit hcnt _ _ hdead _
    exact ⟨rfl, fun j hj => hdead j (Nat.zero_le j) (by omega), hcnt, hinit⟩
  | succ m ih =>
    intro st f n hmn hinit hcnt hlen hids hdead hdist
    have hfm : (st.rollback_log.entries.getD m emptyRollbackEntry).patch_id = f m :=
      hids m (by omega)
    have hfm2 : (st.rollback_log.entries[m]?.getD emptyRollbackEntry).patch_id = f m := by
      rw [← List.getD_eq_getElem?_getD]
      exact hfm
    by_cases hf : f m = 0
    · have hstep : rollbackAllAux (m + 1) st = rollbackAllAux m st := by
        conv_lhs => rw [rollbackAllAux]
        simp [hfm2, hf]
      obtain ⟨htr, hdd, hcc, hii⟩ := ih st f n (by omega) hinit hcnt hlen
        (fun j hj => hids j (by omega))
        (fun j hj1 hj2 => by
          by_cases hjm : j = m
          · subst hjm; rw [hfm]; exact hf
          · exact hdead j (by omega) hj2)
        (fun i hi j hj => hdist i (by omega) j (by omega))
      rw [hstep]
      refine ⟨?_, hdd, hcc, hii⟩
      rw [htr, range_reverse_succ, List.map_cons, List.filter_cons]
      simp [hf]
    · have hmltn : m < n := by omega
      have hmlen : m < st.rollback_log.entries.length := by omega
      have hfind : findRollbackIndex (f m) st.rollback_log.entries
          st.rollback_log.entry_count = some m := by
        rw [hcnt]
        refine findRollbackIndex_first st.rollback_log.entries n m hmltn hmlen hfm ?_
        intro j hj
        rw [hids j (by omega)]
        intro hcontra
        have := hdist m (by omega) j (by omega) hf hcontra.symm
        omega
      have hrb : (security_rollback_patch (f m) st).2 =
          { st with rollback_log :=
              { entry_count := st.rollback_log.entry_count
                entries :=
                  st.rollback_log.entries.set m (deadEntry (st.rollback_log.entries.getD m emptyRollbackEntry)) } } := by
        simp [security_rollback_patch, hinit, hfind]
      have hstep : rollbackAllAux (m + 1) st =
          (f m :: (rollbackAllAux m (security_rollback_patch (f m) st).2).1,
            (rollbackAllAux m (security_rollback_patch (f m) st).2).2) := by
        conv_lhs => rw [rollbackAllAux]
        simp [hfm2, hf]
      obtain ⟨htr, hdd, hcc, hii⟩ := ih (security_rollback_patch (f m) st).2 f n (by omega)
        (by rw [hrb]; exact hinit)
        (by rw [hrb]; exact hcnt)
        (by rw [hrb]; dsimp only; rw [List.length_set]; exact hlen)
        (by
          intro j hj
          rw [hrb]
          dsimp only
          rw [getD_set_ne _ (by omega)]
          exact hids j (by omega))
        (by
          intro j hj1 hj2
          rw [hrb]
          dsimp only
          by_cases hjm : j = m
          · subst hjm
            rw [getD_set_self _ _ hmlen]
            rfl
          · rw [getD_set_ne _ (fun heq => hjm heq.symm)]
            exact hdead j (by omega) hj2)
        (fun i hi j hj => hdist i (by omega) j (by omega))
      rw [hstep]
      refine ⟨?_, hdd, hcc, hii⟩
      simp only [htr, range_reverse_succ, List.map_cons, List.filter_cons]
      simp [hf]

/-! Claim C3: eviction behaviour of the capacity-100 circular rollback
log. The claim expects a true circular buffer; the source pairs the index
entry_count % 100 with a count that saturates at 100, so once the log is
full every further insertion lands in slot 0. -/

set_option maxRecDepth 20000 in
/-- Claim C3, counterexample. After 102 insertions (patch ids 1..102) the
claim says the live log holds exactly the 2 most recent insertions plus
the 98 immediately preceding ones, ids 3..102 — oldest evicted first. In
fact id 101 (the second most recent) is already gone (insertion 102
overwrote it in slot 0) while id 2 (which the claim says was evicted) is
still stored. -/
theorem circular_log_counterexample :
    (insertAll securityInitState wPatches102).rollback_log.entry_count = 100
    ∧ ¬ (101 ∈ ((insertAll securityInitState wPatches102).rollback_log.entries.take
          (insertAll securityInitState wPatches102).rollback_log.entry_count).map
            RollbackEntry.patch_id)
    ∧ (2 ∈ ((insertAll securityInitState wPatches102).rollback_log.entries.take
          (insertAll securityInitState wPatches102).rollback_log.entry_count).map
            RollbackEntry.patch_id) := by
  refine ⟨?_, ?_, ?_⟩ <;> decide

/-- Claim C3, amended: after filling the capacity-100 log with 100
insertions and then inserting k ≥ 1 further patches, entry_count stays
saturated at 100, slot 0 holds only the single most recent insertion
(every post-capacity insertion overwrites slot 0, because the saturated
count makes the index entry_count % 100 constantly 0), and slots 1..99
still hold insertions 2..100 — so the retained entries are the most recent
insertion plus insertions 2..100, not the k most recent plus the N-k
immediately preceding ones. -/
theorem circular_log_overwrites_slot_zero (ps qs : List PatchDescriptor)
    (hps : ps.length = 100) (hqs : qs ≠ []) :
    (insertAll (insertAll securityInitState ps) qs).rollback_log.entry_count = 100
    ∧ (insertAll (insertAll securityInitState ps) qs).rollback_log.entries.getD 0
        emptyRollbackEntry = mkRollbackEntry (qs.getLast hqs)
    ∧ (∀ j, 1 ≤ j → j < 100 →
        (insertAll (insertAll securityInitState ps) qs).rollback_log.entries.getD j
          emptyRollbackEntry = mkRollbackEntry (ps.getD j default)) := by
  obtain ⟨h1, h2, h3, h4, _, h6⟩ := insertAll_spec ps securityInitState rfl rfl
    (by decide) (by rw [hps]; decide)
  have h0 : securityInitState.rollback_log.entry_count = 0 := rfl
  rw [h0] at h3 h6
  simp only [Nat.zero_add] at h3 h6
  have hreq1 : (insertAll securityInitState ps).policy.require_rollback_capability = true := by
    rw [h2]
    rfl
  have hcnt1 : (insertAll securityInitState ps).rollback_log.entry_count = 100 := by
    rw [h3, hps]
  have hfull := insertAll_at_capacity qs (insertAll securityInitState ps) hqs h1 hreq1 hcnt1
  rw [hfull]
  have hlen1 : 0 < (insertAll securityInitState ps).rollback_log.entries.length := by
    rw [h4]
    decide
  refine ⟨rfl, ?_, ?_⟩
  · exact getD_set_self _ _ hlen1 _ _
  · intro j hj1 hj2
    have hne : (0 : Nat) ≠ j := by omega
    rw [getD_set_ne _ hne]
    exact h6 j (by omega)

/-- Claim C3, witness for the amended statement: patches 1..100 then two
more (101 and 102); entry_count is 100 and slot 0 holds the capture of
patch 102. -/
theorem circular_log_overwrites_slot_zero_witness :
    (insertAll (insertAll securityInitState wPatches100) wPatchesExtra).rollback_log.entry_count = 100
    ∧ (insertAll (insertAll securityInitState wPatches100) wPatchesExtra).rollback_log.entries.getD 0
        emptyRollbackEntry = mkRollbackEntry (testPatch 102) := by
  have h := circular_log_overwrites_slot_zero wPatches100 wPatchesExtra (by decide) (by decide)
  refine ⟨h.1, ?_⟩
  rw [h.2.1]
  rfl

/-! Claim C8: order of security_rollback_all. The loop walks slots from
index entry_count - 1 down to 0; while the log has never exceeded its
capacity, slot order equals application order, so the walk is reverse
chronological — but after a wrap the most recent entry sits in slot 0 and
is rolled back last. -/

set_option maxRecDepth 40000 in
/-- Claim C8, counterexample. After applying patches 1..101 (apply
timestamps 1..101), the most recently applied patch (id 101,
timestamp 101, the maximum in the log) sits in slot 0; rollbackAll
processes it LAST, not first: the rollback order starts with id 100 and
ends with id 101. -/
theorem rollback_all_wrap_counterexample :
    (stWrap101.rollback_log.entries.getD 0 emptyRollbackEntry).apply_timestamp = 101
    ∧ (∀ j, j < 100 →
        (stWrap101.rollback_log.entries.getD j emptyRollbackEntry).apply_timestamp ≤ 101)
    ∧ (rollbackAllOrder stWrap101).head? = some 100
    ∧ (rollbackAllOrder stWrap101).getLast? = some 101 := by
  refine ⟨?_, ?_, ?_, ?_⟩ <;> decide

/-- Claim C8, amended: as long as the log has not wrapped (at most 100
captures, with distinct nonzero patch ids), security_rollback_all rolls
back every live entry in reverse chronological order — the full list of
rolled-back ids is exactly the application order reversed, most recently
applied first — and afterwards every entry within entry_count is dead.
After a wrap the slot walk is no longer reverse chronological (see the
counterexample: the most recent entry, in slot 0, is processed last). -/
theorem rollback_all_reverse_order (ps : List PatchDescriptor)
    (hlen : ps.length ≤ 100)
    (hnz : ∀ p ∈ ps, p.id ≠ 0)
    (hdist : ∀ i, i < ps.length → ∀ j, j < ps.length →
        (ps.getD i default).id = (ps.getD j default).id → i = j) :
    rollbackAllOrder (insertAll securityInitState ps) = (ps.map PatchDescriptor.id).reverse
    ∧ (∀ j, j < ps.length →
        (((security_rollback_all (insertAll securityInitState ps)).2).rollback_log.entries.getD j
          emptyRollbackEntry).patch_id = 0) := by
  obtain ⟨h1, _, h3, h4, _, h6⟩ := insertAll_spec ps securityInitState rfl rfl
    (by decide)
    (by
      have h0 : securityInitState.rollback_log.entry_count = 0 := rfl
      rw [h0]
      omega)
  have h0 : securityInitState.rollback_log.entry_count = 0 := rfl
  rw [h0] at h3 h6
  simp only [Nat.zero_add] at h3 h6
  have hcnt : (insertAll securityInitState ps).rollback_log.entry_count = ps.length := h3
  have hids : ∀ j, j < ps.length →
      ((insertAll securityInitState ps).rollback_log.entries.getD j emptyRollbackEntry).patch_id =
        (ps.getD j default).id := by
    intro j hj
    rw [h6 j hj]
    rfl
  obtain ⟨htr, hdd, _, _⟩ := rollbackAllAux_spec ps.length (insertAll securityInitState ps)
    (fun j => (ps.getD j default).id) ps.length le_rfl h1 hcnt (by omega)
    hids (fun j hj1 hj2 => by omega)
    (fun i hi j hj _ heq => hdist i hi j hj heq)
  constructor
  · have horder : rollbackAllOrder (insertAll securityInitState ps) =
        (rollbackAllAux ps.length (insertAll securityInitState ps)).1 := by
      rw [rollbackAllOrder, hcnt]
    rw [horder, htr]
    have hall : ∀ x ∈ (List.range ps.length).reverse.map
        (fun j => (ps.getD j default).id), (x != 0) = true := by
      intro x hx
      simp only [List.mem_map, List.mem_reverse, List.mem_range] at hx
      obtain ⟨j, hj, rfl⟩ := hx
      have : ps.getD j default ∈ ps := getD_mem ps j hj default
      simpa using hnz _ this
    rw [List.filter_eq_self.mpr hall, List.map_reverse]
    exact congrArg List.reverse (map_range_getD PatchDescriptor.id (default : PatchDescriptor) ps)
  · intro j hj
    have hsec : (security_rollback_all (insertAll securityInitState ps)).2 =
        (rollbackAllAux ps.length (insertAll securityInitState ps)).2 := by
      simp only [security_rollback_all, h1, Bool.not_true, Bool.false_eq_true, if_false, hcnt]
    rw [hsec]
    exact hdd j hj

/-- Claim C8, witness for the amended statement: three captured patches
with ids 5, 6, 7 are rolled back in the order 7, 6, 5. -/
theorem rollback_all_reverse_order_witness :
    rollbackAllOrder (insertAll securityInitState wPatches3) = [7, 6, 5] := by
  have h := (rollback_all_reverse_order wPatches3 (by decide) (by decide) (by decide)).1
  rw [h]
  rfl

end NexOS
